import Mathlib

/-!
Verification development for the `sguaba-celestial` library core.

The Rust sources are shallowly embedded:
* strings are ASCII character lists, numeric text is parsed exactly into `ℚ`
  (the claims checked against the parser depend only on parse success and on
  exact decimal values, never on `f64` rounding);
* `chrono` instants (`DateTime<Utc>`) are unix timestamps in whole seconds
  (`ℤ`), with the proleptic-Gregorian calendar functions spelled out;
* double-precision numerics (`orbital.rs`, `ext.rs`, `tle.rs` conversions)
  are embedded over `ℝ`;
* a `panic` inside library code (out-of-range `chrono` arithmetic) is
  modelled by `Option.none` on the functions that can reach one.
-/

namespace Celestial

/-- Rust `char::is_whitespace` restricted to the ASCII whitespace characters
(space, tab, line feed, vertical tab, form feed, carriage return). -/
def isRustWhitespace (c : Char) : Bool :=
  c = ' ' || c = '\t' || c = '\n' || c = '\r' || c = Char.ofNat 11 || c = Char.ofNat 12

/-- Rust string slicing `s[a..b]` on an ASCII string, as characters. -/
def slice (s : List Char) (a b : Nat) : List Char := (s.drop a).take (b - a)

/-- Rust `str::trim` (strip whitespace from both ends) on an ASCII string. -/
def rustTrim (s : List Char) : List Char :=
  ((s.dropWhile isRustWhitespace).reverse.dropWhile isRustWhitespace).reverse

/-- Numeric value of a decimal digit string (most significant first). -/
def digitsVal (l : List Char) : Nat := l.foldl (fun a c => 10 * a + (c.toNat - 48)) 0

/-- Model of Rust `str::parse::<u32>`: optional `+` sign, then decimal digits,
rejecting overflow; whitespace is NOT accepted. -/
def parse_u32 (s : List Char) : Option Nat :=
  let t := match s with
    | '+' :: r => r
    | r => r
  if t.isEmpty then none
  else if t.all Char.isDigit then
    let v := digitsVal t
    if v < 2 ^ 32 then some v else none
  else none

/-- Model of Rust `str::parse::<i32>`: optional sign, then decimal digits,
rejecting overflow; whitespace is NOT accepted. -/
def parse_i32 (s : List Char) : Option Int :=
  let p : Bool × List Char := match s with
    | '-' :: r => (true, r)
    | '+' :: r => (false, r)
    | r => (false, r)
  if p.2.isEmpty then none
  else if p.2.all Char.isDigit then
    let v : Int := if p.1 then -(digitsVal p.2 : Int) else (digitsVal p.2 : Int)
    if -(2 ^ 31) ≤ v ∧ v ≤ 2 ^ 31 - 1 then some v else none
  else none

/-- Decimal exponent of a float literal: optional sign, then at least one digit. -/
def parseExponent (s : List Char) : Option Int :=
  let p : Bool × List Char := match s with
    | '-' :: r => (true, r)
    | '+' :: r => (false, r)
    | r => (false, r)
  if p.2.isEmpty then none
  else if p.2.all Char.isDigit then
    some (if p.1 then -(digitsVal p.2 : Int) else (digitsVal p.2 : Int))
  else none

/-- Powers of ten, structurally (kernel-reducible). -/
def pow10 : Nat → Nat
  | 0 => 1
  | k + 1 => 10 * pow10 k

/-- A decimal literal parsed exactly: the value is `num / den`, with `den` a
power of ten as dictated by the digits written after the point and by the
exponent.  Nothing is normalized, so the representation is the literal's
syntax and supports kernel evaluation. -/
structure DecNum where
  num : Int
  den : Nat
deriving DecidableEq

/-- Model of Rust `str::parse::<f64>` on finite decimal literals, with the
value kept exact: optional sign, digits with an optional point (at least one
digit overall), optional `e`/`E` exponent.  Whitespace is NOT accepted.  The
non-finite literals (`inf`, `infinity`, `nan`, case-insensitive) are treated as
parse failures by this model; no claim below depends on an input containing
them. -/
def parse_f64 (s : List Char) : Option DecNum :=
  let p : Bool × List Char := match s with
    | '-' :: r => (true, r)
    | '+' :: r => (false, r)
    | r => (false, r)
  let ip := p.2.takeWhile Char.isDigit
  let t1 := p.2.dropWhile Char.isDigit
  let q : List Char × List Char := match t1 with
    | '.' :: r => (r.takeWhile Char.isDigit, r.dropWhile Char.isDigit)
    | r => ([], r)
  if ip.isEmpty && q.1.isEmpty then none
  else
    let base : Int := (digitsVal ip * pow10 q.1.length + digitsVal q.1 : Nat)
    let base : Int := if p.1 then -base else base
    let den : Nat := pow10 q.1.length
    match q.2 with
    | [] => some ⟨base, den⟩
    | c :: r =>
      if c = 'e' || c = 'E' then
        match parseExponent r with
        | some k =>
          if 0 ≤ k then some ⟨base * (pow10 k.toNat : Nat), den⟩
          else some ⟨base, den * pow10 (-k).toNat⟩
        | none => none
      else none

/-- The error type of `errors.rs` (`CelestialError`); `f64` Julian-date payloads
are carried exactly as `ℚ`, instants as unix seconds. -/
inductive CelestialError where
  | epochOutOfRange (epoch : Int) (min_jd max_jd : ℚ)
  | timeScaleConversionFailed (reason : String)
  | invalidCoordinates (reason : String)
  | numericalPrecisionError (reason : String)
deriving DecidableEq

deriving instance DecidableEq for Except

/-- The parsed fields of `TleElements` (tle.rs) before unit wrapping: angles in
degrees as written in the TLE, the epoch as a unix timestamp. -/
structure RawTle where
  catalog_number : Nat
  epoch : Int
  inclination_deg : DecNum
  raan_deg : DecNum
  eccentricity : DecNum
  arg_perigee_deg : DecNum
  mean_anomaly_deg : DecNum
  mean_motion : DecNum
deriving DecidableEq

/-- Days from 1970-01-01 to year `y`, month `m`, day `d` in the proleptic
Gregorian calendar (Hinnant's `days_from_civil`, the arithmetic used by
`chrono`). -/
def days_from_civil (y m d : Int) : Int :=
  let y1 := if m ≤ 2 then y - 1 else y
  let era := Int.fdiv y1 400
  let yoe := y1 - era * 400
  let mp := if 2 < m then m - 3 else m + 9
  let doy := Int.fdiv (153 * mp + 2) 5 + d - 1
  let doe := yoe * 365 + Int.fdiv yoe 4 - Int.fdiv yoe 100 + doy
  era * 146097 + doe - 719468

/-- Calendar year of a day count from 1970-01-01 (Hinnant's `civil_from_days`,
year component only). -/
def civil_year_from_days (z0 : Int) : Int :=
  let z := z0 + 719468
  let era := Int.fdiv z 146097
  let doe := z - era * 146097
  let yoe := Int.fdiv (doe - Int.fdiv doe 1460 + Int.fdiv doe 36524 - Int.fdiv doe 146096) 365
  let y := yoe + era * 400
  let doy := doe - (365 * yoe + Int.fdiv yoe 4 - Int.fdiv yoe 100)
  let mp := Int.fdiv (5 * doy + 2) 153
  let m := if mp < 10 then mp + 3 else mp - 9
  if m ≤ 2 then y + 1 else y

/-- Calendar year of a `chrono` UTC instant given as unix seconds
(`Datelike::year`). -/
def datetime_year (ts : Int) : Int := civil_year_from_days (Int.fdiv ts 86400)

/-- Model of `validate_epoch` (time_scales.rs): reject instants whose calendar
year lies outside [1900, 2100]; the error carries the instant and the literal
Julian-date bounds 2415020.5 and 2488070.5. -/
def validate_epoch (epoch : Int) : Except CelestialError Unit :=
  let year := datetime_year epoch
  if ¬(1900 ≤ year ∧ year ≤ 2100) then
    Except.error (CelestialError.epochOutOfRange epoch (4830041 / 2) (4976141 / 2))
  else Except.ok ()

/-- Greatest whole-day magnitude accepted by `chrono::Duration::days`
(`i64::MAX` milliseconds in whole days); beyond it `Duration::days` panics. -/
def maxDurationDays : Int := 106751991167

/-- Smallest calendar year representable by `chrono::NaiveDate`. -/
def minChronoYear : Int := -262144

/-- Greatest calendar year representable by `chrono::NaiveDate`. -/
def maxChronoYear : Int := 262143

/-- Unix seconds of the smallest `chrono` UTC instant (start of the smallest
representable year). -/
def minChronoTs : Int := days_from_civil minChronoYear 1 1 * 86400

/-- Unix seconds of the greatest `chrono` UTC instant (last second of the
greatest representable year). -/
def maxChronoTs : Int := days_from_civil maxChronoYear 12 31 * 86400 + 86399

/-- Model of `tle_epoch_to_datetime` (tle.rs).  `day_of_year.floor()` is
`num.fdiv den`; the fractional part is `(num − floor·den)/den ∈ [0, 1)`, and
`(fractional_day * 86400.0).round()` — rounding half away from zero, which on
this nonnegative value is rounding half up — is `⌊(frac·86400·2·den + den) /
(2·den)⌋`.  `none` models a panic inside `chrono` (`Duration::days` out of
bounds, or the `DateTime + Duration` sums leaving the representable range —
the model checks the final sum); `some` is the Rust return value, the epoch as
unix seconds. -/
def tle_epoch_to_datetime (year : Int) (day_of_year : DecNum) :
    Option (Except CelestialError Int) :=
  if year < minChronoYear ∨ maxChronoYear < year then
    some (Except.error (CelestialError.invalidCoordinates "Invalid year"))
  else
    let jan1 : Int := days_from_civil year 1 1 * 86400
    let floorDay : Int := Int.fdiv day_of_year.num day_of_year.den
    let whole_days : Int := floorDay - 1
    let fracNum : Int := day_of_year.num - floorDay * day_of_year.den
    let seconds : Int := Int.fdiv (2 * fracNum * 86400 + day_of_year.den)
      (2 * day_of_year.den)
    if maxDurationDays < |whole_days| then none
    else
      let ts := jan1 + whole_days * 86400 + seconds
      if ts < minChronoTs ∨ maxChronoTs < ts then none
      else some (Except.ok ts)

/-- Model of `TleElements::from_lines` (tle.rs) on ASCII lines, down to the
parsed `ℚ` fields.  `none` models a panic (reachable only through
`tle_epoch_to_datetime`); `some` is the Rust return value. -/
def from_lines (line1 line2 : List Char) : Option (Except CelestialError RawTle) :=
  if line1.length < 69 ∨ line2.length < 69 then
    some (Except.error (CelestialError.invalidCoordinates "TLE lines must be 69 characters"))
  else if ¬(line1.head? = some '1' ∧ line2.head? = some '2') then
    some (Except.error (CelestialError.invalidCoordinates "Invalid TLE line numbers"))
  else
    match parse_u32 (rustTrim (slice line1 2 7)) with
    | none => some (Except.error (CelestialError.invalidCoordinates "Invalid catalog number"))
    | some catalog_number =>
    match parse_i32 (slice line1 18 20) with
    | none => some (Except.error (CelestialError.invalidCoordinates "Invalid epoch year"))
    | some ey =>
    let epoch_year := if ey < 57 then 2000 + ey else 1900 + ey
    match parse_f64 (slice line1 20 32) with
    | none => some (Except.error (CelestialError.invalidCoordinates "Invalid epoch day"))
    | some epoch_day =>
    match tle_epoch_to_datetime epoch_year epoch_day with
    | none => none
    | some (Except.error e) => some (Except.error e)
    | some (Except.ok epoch) =>
    match parse_f64 (rustTrim (slice line2 8 16)) with
    | none => some (Except.error (CelestialError.invalidCoordinates "Invalid inclination"))
    | some inclination =>
    match parse_f64 (rustTrim (slice line2 17 25)) with
    | none => some (Except.error (CelestialError.invalidCoordinates "Invalid RAAN"))
    | some raan =>
    match parse_f64 ('0' :: '.' :: slice line2 26 33) with
    | none => some (Except.error (CelestialError.invalidCoordinates "Invalid eccentricity"))
    | some eccentricity =>
    match parse_f64 (rustTrim (slice line2 34 42)) with
    | none => some (Except.error (CelestialError.invalidCoordinates "Invalid argument of perigee"))
    | some arg_perigee =>
    match parse_f64 (rustTrim (slice line2 43 51)) with
    | none => some (Except.error (CelestialError.invalidCoordinates "Invalid mean anomaly"))
    | some mean_anomaly =>
    match parse_f64 (rustTrim (slice line2 52 63)) with
    | none => some (Except.error (CelestialError.invalidCoordinates "Invalid mean motion"))
    | some mean_motion =>
      some (Except.ok
        { catalog_number := catalog_number
          epoch := epoch
          inclination_deg := inclination
          raan_deg := raan
          eccentricity := eccentricity
          arg_perigee_deg := arg_perigee
          mean_anomaly_deg := mean_anomaly
          mean_motion := mean_motion })

/-- The concrete ISS TLE line 1 used by the spec's end-to-end scenario. -/
def issLine1 : List Char :=
  "1 25544U 98067A   20206.18539600  .00001406  00000-0  33518-4 0  9992".toList

/-- The concrete ISS TLE line 2 used by the spec's end-to-end scenario. -/
def issLine2 : List Char :=
  "2 25544  51.6461 339.8014 0001473  94.8340 265.2864 15.49309432236008".toList

/-- The record `from_lines` produces for the ISS TLE lines. -/
def issRaw : RawTle :=
  { catalog_number := 25544
    epoch := 1595564818
    inclination_deg := ⟨516461, pow10 4⟩
    raan_deg := ⟨3398014, pow10 4⟩
    eccentricity := ⟨1473, pow10 7⟩
    arg_perigee_deg := ⟨948340, pow10 4⟩
    mean_anomaly_deg := ⟨2652864, pow10 4⟩
    mean_motion := ⟨1549309432, pow10 8⟩ }

/-- ISS line 1 with the epoch-day field (columns 20..32) padded by one leading
space; the padded field still parses once trimmed. -/
def padDayLine1 : List Char :=
  "1 25544U 98067A   20 96.18539600  .00001406  00000-0  33518-4 0  9992".toList

/-- ISS line 1 with the epoch-year field (columns 18..20) space-padded to " 9". -/
def padYearLine1 : List Char :=
  "1 25544U 98067A    9206.18539600  .00001406  00000-0  33518-4 0  9992".toList

/-- ISS line 2 with the eccentricity field (columns 26..33) space-padded to
"   1473". -/
def padEccLine2 : List Char :=
  "2 25544  51.6461 339.8014    1473  94.8340 265.2864 15.49309432236008".toList

/-- ISS line 1 with the epoch-day field replaced by "999999999999": the parsed
day count exceeds what `chrono::Duration::days` accepts. -/
def panicDayLine1 : List Char :=
  "1 25544U 98067A   20999999999999  .00001406  00000-0  33518-4 0  9992".toList

noncomputable section

/-- `MU_EARTH` (constants.rs): Earth's gravitational parameter, m³/s². -/
def MU_EARTH : ℝ := 3.986004418e14

/-- `uom` `Angle::new::<degree>`: the stored SI value (radians) of an angle
given in degrees. -/
def degToRad (x : ℝ) : ℝ := x * (Real.pi / 180)

/-- The real value of an exactly-parsed decimal literal. -/
def DecNum.toReal (d : DecNum) : ℝ := (d.num : ℝ) / (d.den : ℝ)

/-- `uom` `Length::new::<kilometer>`: the stored SI value (metres) of a length
given in kilometres. -/
def lengthOfKilometers (x : ℝ) : ℝ := x * 1000

/-- `uom` `Length::get::<kilometer>`: read a stored SI length back in
kilometres. -/
def lengthGetKilometers (x : ℝ) : ℝ := x / 1000

/-- `TleElements` (tle.rs) after unit wrapping: angles are `uom` `Angle` values
(SI radians), the epoch is unix seconds. -/
structure TleElements where
  catalog_number : Nat
  epoch : Int
  inclination : ℝ
  raan : ℝ
  eccentricity : ℝ
  arg_perigee : ℝ
  mean_anomaly : ℝ
  mean_motion : ℝ

/-- Wrap the parsed `ℚ` fields into `TleElements` exactly as `from_lines`
does: `Angle::new::<degree>` on the four angle fields, plain `f64` for
eccentricity and mean motion. -/
def TleElements.ofRaw (r : RawTle) : TleElements :=
  { catalog_number := r.catalog_number
    epoch := r.epoch
    inclination := degToRad r.inclination_deg.toReal
    raan := degToRad r.raan_deg.toReal
    eccentricity := r.eccentricity.toReal
    arg_perigee := degToRad r.arg_perigee_deg.toReal
    mean_anomaly := degToRad r.mean_anomaly_deg.toReal
    mean_motion := r.mean_motion.toReal }

/-- `KeplerianElements` (orbital.rs); `semi_major_axis` is the stored SI value
(metres), angles are SI radians. -/
structure KeplerianElements where
  semi_major_axis : ℝ
  eccentricity : ℝ
  inclination : ℝ
  raan : ℝ
  argument_of_periapsis : ℝ
  true_anomaly : ℝ
  mu : ℝ

/-- `KeplerianElements::new` (orbital.rs): build elements with Earth's μ. -/
def KeplerianElements.new (semi_major_axis eccentricity inclination raan
    argument_of_periapsis true_anomaly : ℝ) : KeplerianElements :=
  { semi_major_axis := semi_major_axis
    eccentricity := eccentricity
    inclination := inclination
    raan := raan
    argument_of_periapsis := argument_of_periapsis
    true_anomaly := true_anomaly
    mu := MU_EARTH }

/-- `TleElements::to_keplerian` (tle.rs): mean motion (rev/day) to rad/s, then
semi-major axis from n² = μ/a³, stored through `Length::new::<kilometer>(a /
1000.0)`. -/
def TleElements.to_keplerian (t : TleElements) : KeplerianElements :=
  let n := t.mean_motion * 2 * Real.pi / 86400
  let a := (MU_EARTH / (n * n)) ^ ((1 : ℝ) / 3)
  KeplerianElements.new (lengthOfKilometers (a / 1000)) t.eccentricity t.inclination
    t.raan t.arg_perigee t.mean_anomaly

/-- A `sguaba` `Coordinate<Icrs>`: a Cartesian point, components in metres. -/
structure Coordinate where
  x : ℝ
  y : ℝ
  z : ℝ

/-- Modelled from the spec: `sguaba`'s `distance_from_origin` (the `sguaba`
crate is an external collaborator; spec §4.2 defines r as the Euclidean norm of
(x, y, z)). -/
def Coordinate.distance_from_origin (c : Coordinate) : ℝ :=
  Real.sqrt (c.x ^ 2 + c.y ^ 2 + c.z ^ 2)

/-- `KeplerianElements::to_state_vectors` (orbital.rs): perifocal state rotated
into ICRS by the expanded 3-1-3 matrix, exactly as written in the source. -/
def KeplerianElements.to_state_vectors (k : KeplerianElements) :
    Coordinate × (ℝ × ℝ × ℝ) :=
  let a := k.semi_major_axis
  let e := k.eccentricity
  let i := k.inclination
  let raan := k.raan
  let omega := k.argument_of_periapsis
  let nu := k.true_anomaly
  let r := a * (1 - e * e) / (1 + e * Real.cos nu)
  let x_pqw := r * Real.cos nu
  let y_pqw := r * Real.sin nu
  let z_pqw := (0 : ℝ)
  let p := a * (1 - e * e)
  let vx_pqw := -(Real.sqrt (k.mu / p)) * Real.sin nu
  let vy_pqw := Real.sqrt (k.mu / p) * (e + Real.cos nu)
  let vz_pqw := (0 : ℝ)
  let sin_omega := Real.sin omega
  let cos_omega := Real.cos omega
  let sin_i := Real.sin i
  let cos_i := Real.cos i
  let sin_raan := Real.sin raan
  let cos_raan := Real.cos raan
  let x := (cos_raan * cos_omega - sin_raan * sin_omega * cos_i) * x_pqw
    + (-cos_raan * sin_omega - sin_raan * cos_omega * cos_i) * y_pqw
    + (sin_raan * sin_i) * z_pqw
  let y := (sin_raan * cos_omega + cos_raan * sin_omega * cos_i) * x_pqw
    + (-sin_raan * sin_omega + cos_raan * cos_omega * cos_i) * y_pqw
    + (-cos_raan * sin_i) * z_pqw
  let z := (sin_omega * sin_i) * x_pqw + (cos_omega * sin_i) * y_pqw + cos_i * z_pqw
  let vx := (cos_raan * cos_omega - sin_raan * sin_omega * cos_i) * vx_pqw
    + (-cos_raan * sin_omega - sin_raan * cos_omega * cos_i) * vy_pqw
    + (sin_raan * sin_i) * vz_pqw
  let vy := (sin_raan * cos_omega + cos_raan * sin_omega * cos_i) * vx_pqw
    + (-sin_raan * sin_omega + cos_raan * cos_omega * cos_i) * vy_pqw
    + (-cos_raan * sin_i) * vz_pqw
  let vz := (sin_omega * sin_i) * vx_pqw + (cos_omega * sin_i) * vy_pqw + cos_i * vz_pqw
  (⟨x, y, z⟩, (vx, vy, vz))

/-- `utc_to_julian_date` (constants.rs) on a unix-seconds instant. -/
def utc_to_julian_date (ts : Int) : ℝ := (ts : ℝ) / 86400 + 2440587.5

/-- `KeplerianElements::propagate_to` (orbital.rs): two-body propagation with
the fixed ten-pass Newton loop written as the source's `for` loop (a fold over
`0..10`). -/
def KeplerianElements.propagate_to (k : KeplerianElements)
    (target_epoch current_epoch : Int) : KeplerianElements :=
  let dt := (utc_to_julian_date target_epoch - utc_to_julian_date current_epoch) * 86400
  let a := k.semi_major_axis
  let n := Real.sqrt (k.mu / a ^ 3)
  let delta_m := n * dt
  let e := k.eccentricity
  let nu := k.true_anomaly
  let ecc_anomaly := 2 * Real.arctan (Real.tan (nu / 2) / Real.sqrt ((1 + e) / (1 - e)))
  let mean_anomaly := ecc_anomaly - e * Real.sin ecc_anomaly
  let new_mean_anomaly := mean_anomaly + delta_m
  let e_anom := (List.range 10).foldl
    (fun ea _ => ea - (ea - e * Real.sin ea - new_mean_anomaly) / (1 - e * Real.cos ea))
    new_mean_anomaly
  let new_nu := 2 * Real.arctan (Real.sqrt ((1 + e) / (1 - e)) * Real.tan (e_anom / 2))
  { k with true_anomaly := new_nu }

/-- Spec §4.6 step 5, as worded: one Newton update for Kepler's equation
E − e·sin E = M. -/
def keplerNewtonStep (e M E : ℝ) : ℝ :=
  E - (E - e * Real.sin E - M) / (1 - e * Real.cos E)

/-- Spec §4.6 step 5, as worded: j Newton updates starting at E = M. -/
def keplerNewtonIterate (e M : ℝ) : Nat → ℝ
  | 0 => M
  | Nat.succ j => keplerNewtonStep e M (keplerNewtonIterate e M j)

/-- Spec §4.6 steps 1-4, as worded: the advanced mean anomaly M′ fed to the
Kepler solver. -/
def specNewMeanAnomaly (k : KeplerianElements) (target_epoch current_epoch : Int) : ℝ :=
  let dt := (utc_to_julian_date target_epoch - utc_to_julian_date current_epoch) * 86400
  let e := k.eccentricity
  let E := 2 * Real.arctan (Real.tan (k.true_anomaly / 2) / Real.sqrt ((1 + e) / (1 - e)))
  let M := E - e * Real.sin E
  M + Real.sqrt (k.mu / k.semi_major_axis ^ 3) * dt

/-- The `f64::atan2` of libm (Rust `y.atan2(x)`), on reals: the standard
piecewise definition with the signed-zero distinction collapsed. -/
def atan2 (y x : ℝ) : ℝ :=
  if 0 < x then Real.arctan (y / x)
  else if x < 0 then
    (if 0 ≤ y then Real.arctan (y / x) + Real.pi else Real.arctan (y / x) - Real.pi)
  else if 0 < y then Real.pi / 2
  else if y < 0 then -(Real.pi / 2)
  else 0

/-- `from_ra_dec` (ext.rs, `IcrsCoordinateExt`): Cartesian components from
right ascension, declination and distance. -/
def from_ra_dec (ra dec r : ℝ) : Coordinate :=
  ⟨r * Real.cos dec * Real.cos ra, r * Real.cos dec * Real.sin ra, r * Real.sin dec⟩

/-- `to_spherical_celestial` (ext.rs, `IcrsCoordinateExt`): (ra, dec, distance)
with ra shifted into [0, 2π) and dec = asin(z/r) guarded by r > 0. -/
def to_spherical_celestial (c : Coordinate) : ℝ × ℝ × ℝ :=
  let distance := c.distance_from_origin
  let ra0 := atan2 c.y c.x
  let ra := if ra0 < 0 then ra0 + 2 * Real.pi else ra0
  let dec := if 0 < distance then Real.arcsin (c.z / distance) else 0
  (ra, dec, distance)

/-- The Keplerian elements of the spec's circular-orbit sanity check P5:
e = 0, i = Ω = ω = ν = 0, μ = μ_Earth, a = 7000 km. -/
def c5Elements : KeplerianElements :=
  KeplerianElements.new (lengthOfKilometers 7000) 0 0 0 0 0

end

/-- `CachedTransform` (cached.rs), sequential model: the optional cached
`(transform, epoch)` entry plus the tolerance, epochs and the tolerance in
whole seconds (`chrono` durations are compared through `num_seconds`). -/
structure CachedTransform (T : Type) where
  entry : Option (T × Int)
  tolerance : Int

/-- `CachedTransform::get_or_compute` (cached.rs) as state passing: returns the
transform, the state after the call, and whether `compute_fn` was invoked. -/
def CachedTransform.get_or_compute {T : Type} (c : CachedTransform T) (epoch : Int)
    (compute_fn : Int → T) : T × CachedTransform T × Bool :=
  match c.entry with
  | some (tr, ep) =>
    if |epoch - ep| ≤ c.tolerance then (tr, c, false)
    else (compute_fn epoch, ⟨some (compute_fn epoch, epoch), c.tolerance⟩, true)
  | none => (compute_fn epoch, ⟨some (compute_fn epoch, epoch), c.tolerance⟩, true)

/-- `CachedTransform::invalidate` (cached.rs): drop the entry. -/
def CachedTransform.invalidate {T : Type} (c : CachedTransform T) : CachedTransform T :=
  ⟨none, c.tolerance⟩

/-- `CachedTransform::is_valid_for` (cached.rs): pure read against the current
entry. -/
def CachedTransform.is_valid_for {T : Type} (c : CachedTransform T) (epoch : Int) : Bool :=
  match c.entry with
  | some (_, ep) => decide (|epoch - ep| ≤ c.tolerance)
  | none => false

theorem range_foldl_eq_iterate (f : ℝ → ℝ) (x : ℝ) (n : Nat) :
    (List.range n).foldl (fun a _ => f a) x = f^[n] x := by
  induction n with
  | zero => simp
  | succ k ih =>
    rw [List.range_succ, List.foldl_append, ih, Function.iterate_succ_apply']
    rfl

theorem keplerNewtonIterate_eq_iterate (e M : ℝ) (n : Nat) :
    keplerNewtonIterate e M n = (keplerNewtonStep e M)^[n] M := by
  induction n with
  | zero => rfl
  | succ k ih => rw [keplerNewtonIterate, ih, Function.iterate_succ_apply']

theorem kepler_foldl_eq (e M : ℝ) (n : Nat) :
    (List.range n).foldl
      (fun ea _ => ea - (ea - e * Real.sin ea - M) / (1 - e * Real.cos ea)) M =
      keplerNewtonIterate e M n := by
  have h : (fun (ea : ℝ) (_ : Nat) => ea - (ea - e * Real.sin ea - M) / (1 - e * Real.cos ea)) =
      fun (ea : ℝ) (_ : Nat) => keplerNewtonStep e M ea := rfl
  rw [h, range_foldl_eq_iterate, keplerNewtonIterate_eq_iterate]

/-- Claim C1 — counterexample.  The epoch-day field of `padDayLine1` occupies
its columns 20..32 padded with a leading space, and once trimmed it parses as
96.185396; yet `from_lines` aborts with "Invalid epoch day", because the
epoch-day field is parsed without trimming.  This refutes the claim that every
fixed-column numeric field is whitespace-trimmed before the numeric parse. -/
theorem tle_epoch_day_not_trimmed :
    slice padDayLine1 20 32 = " 96.18539600".toList ∧
    parse_f64 (rustTrim (slice padDayLine1 20 32)) = some ⟨9618539600, pow10 8⟩ ∧
    from_lines padDayLine1 issLine2 =
      some (Except.error (CelestialError.invalidCoordinates "Invalid epoch day")) := by
  decide

/-- Claim C1 — amended.  The catalog-number, inclination, RAAN,
argument-of-perigee, mean-anomaly and mean-motion fields are whitespace-trimmed
before the numeric parse (the ISS lines carry space padding inside the
inclination and argument-of-perigee columns and still parse), but the epoch
year at 18..20, the epoch day at 20..32 and the eccentricity at 26..33 are
parsed without trimming, so space padding inside those columns aborts the
parse with `InvalidCoordinates`. -/
theorem tle_field_trimming :
    (slice issLine2 8 16 = " 51.6461".toList ∧
      slice issLine2 34 42 = " 94.8340".toList ∧
      from_lines issLine1 issLine2 = some (Except.ok issRaw)) ∧
    from_lines padYearLine1 issLine2 =
      some (Except.error (CelestialError.invalidCoordinates "Invalid epoch year")) ∧
    from_lines issLine1 padEccLine2 =
      some (Except.error (CelestialError.invalidCoordinates "Invalid eccentricity")) := by
  decide

/-- Claim C2: `TleElements::to_keplerian` stores the TLE's mean anomaly,
numerically unchanged, in the true-anomaly field of the resulting
`KeplerianElements`; no mean-to-true anomaly conversion happens. -/
theorem to_keplerian_true_anomaly_is_mean_anomaly (t : TleElements) :
    (t.to_keplerian).true_anomaly = t.mean_anomaly := rfl

/-- Claim C3: for every `KeplerianElements` value and any pair of epochs,
`propagate_to` is total (it returns a plain record, never an error) and the
returned true anomaly is built from exactly the 10th Newton iterate of
Kepler's equation E′ − e·sin E′ = M′, the iteration starting at E′ = M′ with
update E′ ← E′ − (E′ − e·sin E′ − M′)/(1 − e·cos E′). -/
theorem propagate_to_ten_newton_iterations (k : KeplerianElements)
    (target_epoch current_epoch : Int) :
    (k.propagate_to target_epoch current_epoch).true_anomaly =
      2 * Real.arctan (Real.sqrt ((1 + k.eccentricity) / (1 - k.eccentricity)) *
        Real.tan (keplerNewtonIterate k.eccentricity
          (specNewMeanAnomaly k target_epoch current_epoch) 10 / 2)) := by
  simp only [KeplerianElements.propagate_to, specNewMeanAnomaly]
  rw [kepler_foldl_eq]

/-- Claim C4: `propagate_to` preserves every field except the true anomaly:
semi-major axis, eccentricity, inclination, RAAN, argument of periapsis and μ
of the returned record equal those of the input. -/
theorem propagate_to_preserves_other_fields (k : KeplerianElements)
    (target_epoch current_epoch : Int) :
    (k.propagate_to target_epoch current_epoch).semi_major_axis = k.semi_major_axis ∧
    (k.propagate_to target_epoch current_epoch).eccentricity = k.eccentricity ∧
    (k.propagate_to target_epoch current_epoch).inclination = k.inclination ∧
    (k.propagate_to target_epoch current_epoch).raan = k.raan ∧
    (k.propagate_to target_epoch current_epoch).argument_of_periapsis =
      k.argument_of_periapsis ∧
    (k.propagate_to target_epoch current_epoch).mu = k.mu :=
  ⟨rfl, rfl, rfl, rfl, rfl, rfl⟩

/-- Claim C8 — the code panics on a malformed input instead of returning a
structured error.  `panicDayLine1` is a valid-looking ASCII line whose
epoch-day columns hold "999999999999"; the field parses as the finite number
999999999999, and `tle_epoch_to_datetime` then calls
`chrono::Duration::days(999999999998)`, which panics (it exceeds chrono's
`i64::MAX`-milliseconds bound of 106751991167 whole days), modelled here by
`none`. -/
theorem from_lines_panics_on_huge_epoch_day :
    parse_f64 (slice panicDayLine1 20 32) = some ⟨999999999999, pow10 0⟩ ∧
    from_lines panicDayLine1 issLine2 = none := by decide

/-- Claim C9: `validate_epoch` succeeds exactly when the calendar year of the
instant is within [1900, 2100], and otherwise returns `EpochOutOfRange`
carrying the instant together with min_jd = 2415020.5 and max_jd =
2488070.5. -/
theorem validate_epoch_spec (ts : Int) :
    (validate_epoch ts = Except.ok () ↔
      1900 ≤ datetime_year ts ∧ datetime_year ts ≤ 2100) ∧
    (datetime_year ts < 1900 ∨ 2100 < datetime_year ts →
      validate_epoch ts = Except.error
        (CelestialError.epochOutOfRange ts (4830041 / 2) (4976141 / 2))) := by
  by_cases h : 1900 ≤ datetime_year ts ∧ datetime_year ts ≤ 2100
  · refine ⟨⟨fun _ => h, fun _ => ?_⟩, fun hc => ?_⟩
    · simp [validate_epoch, h]
    · exact absurd hc (by omega)
  · refine ⟨⟨fun he => ?_, fun hy => absurd hy h⟩, fun _ => ?_⟩
    · simp [validate_epoch, h] at he
    · simp [validate_epoch, h]

/-- Witness for C9: the unix epoch (year 1970) is accepted. -/
theorem validate_epoch_spec_witness : validate_epoch 0 = Except.ok () :=
  (validate_epoch_spec 0).1.mpr (by decide)

/-- Claim C10: populating an empty `CachedTransform` invokes the compute
function and stores `(f t, t)`; a second call within the whole-second
tolerance returns the cached transform without invoking its compute function
and leaves the state unchanged; a call beyond the tolerance invokes its
compute function and replaces the entry; and after `invalidate`,
`is_valid_for` is false for every epoch. -/
theorem cached_transform_spec {T : Type} (d t t1 : Int) (f g : Int → T) :
    (CachedTransform.get_or_compute ⟨none, d⟩ t f = (f t, ⟨some (f t, t), d⟩, true)) ∧
    (|t1 - t| ≤ d →
      CachedTransform.get_or_compute ⟨some (f t, t), d⟩ t1 g =
        (f t, ⟨some (f t, t), d⟩, false)) ∧
    (d < |t1 - t| →
      CachedTransform.get_or_compute ⟨some (f t, t), d⟩ t1 g =
        (g t1, ⟨some (g t1, t1), d⟩, true)) ∧
    (∀ (c : CachedTransform T) (u : Int), (c.invalidate).is_valid_for u = false) := by
  refine ⟨rfl, fun h => ?_, fun h => ?_, fun c u => rfl⟩
  · simp [CachedTransform.get_or_compute, h]
  · simp [CachedTransform.get_or_compute, not_le.mpr h]

/-- Witness for C10: with tolerance 60, a repopulated cache at epoch 0 serves
epoch 30 from the cache without invoking the compute function. -/
theorem cached_transform_spec_witness :
    CachedTransform.get_or_compute (⟨some ((fun _ => (0 : Int)) 0, 0), 60⟩ :
        CachedTransform Int) 30 (fun _ => 1) =
      ((fun _ => (0 : Int)) 0, ⟨some ((fun _ => (0 : Int)) 0, 0), 60⟩, false) :=
  (cached_transform_spec (T := Int) 60 0 30 (fun _ => 0) (fun _ => 1)).2.1 (by decide)

/-- Claim C5: for the elements e = 0, i = Ω = ω = ν = 0, μ = μ_Earth,
a = 7000 km, `to_state_vectors` puts the position on the +X axis at 7000 km
within 0.1 km (y and z within 0.1 km of zero) and the velocity magnitude
within 10 m/s of √(μ/a). -/
theorem circular_orbit_sanity :
    |(c5Elements.to_state_vectors).1.x - lengthOfKilometers 7000| ≤ 100 ∧
    |(c5Elements.to_state_vectors).1.y| ≤ 100 ∧
    |(c5Elements.to_state_vectors).1.z| ≤ 100 ∧
    |Real.sqrt ((c5Elements.to_state_vectors).2.1 ^ 2 +
        (c5Elements.to_state_vectors).2.2.1 ^ 2 +
        (c5Elements.to_state_vectors).2.2.2 ^ 2) -
      Real.sqrt (MU_EARTH / lengthOfKilometers 7000)| ≤ 10 := by
  have hx : (c5Elements.to_state_vectors).1.x = 7000 * 1000 := by
    simp [c5Elements, KeplerianElements.to_state_vectors, KeplerianElements.new,
      lengthOfKilometers]
  have hy : (c5Elements.to_state_vectors).1.y = 0 := by
    simp [c5Elements, KeplerianElements.to_state_vectors, KeplerianElements.new,
      lengthOfKilometers]
  have hz : (c5Elements.to_state_vectors).1.z = 0 := by
    simp [c5Elements, KeplerianElements.to_state_vectors, KeplerianElements.new,
      lengthOfKilometers]
  have hvx : (c5Elements.to_state_vectors).2.1 = 0 := by
    simp [c5Elements, KeplerianElements.to_state_vectors, KeplerianElements.new,
      lengthOfKilometers]
  have hvy : (c5Elements.to_state_vectors).2.2.1 =
      Real.sqrt (MU_EARTH / (7000 * 1000)) := by
    simp [c5Elements, KeplerianElements.to_state_vectors, KeplerianElements.new,
      lengthOfKilometers]
  have hvz : (c5Elements.to_state_vectors).2.2.2 = 0 := by
    simp [c5Elements, KeplerianElements.to_state_vectors, KeplerianElements.new,
      lengthOfKilometers]
  rw [hx, hy, hz, hvx, hvy, hvz, lengthOfKilometers]
  have hs : Real.sqrt ((0:ℝ) ^ 2 + Real.sqrt (MU_EARTH / (7000 * 1000)) ^ 2 + 0 ^ 2) =
      Real.sqrt (MU_EARTH / (7000 * 1000)) := by
    rw [show (0:ℝ) ^ 2 + Real.sqrt (MU_EARTH / (7000 * 1000)) ^ 2 + 0 ^ 2 =
        Real.sqrt (MU_EARTH / (7000 * 1000)) ^ 2 by ring]
    exact Real.sqrt_sq (Real.sqrt_nonneg _)
  rw [hs]
  norm_num

/-- Claim C6: `to_keplerian` sets the stored semi-major axis (SI metres) to
(μ_Earth/n²)^(1/3) with n = mean_motion·2π/86400 rad/s, the kilometre storage
being value-preserving; and for the ISS TLE lines the derived semi-major axis
in kilometres lies strictly between 6700 and 6900. -/
theorem to_keplerian_semi_major_axis :
    (∀ t : TleElements, (t.to_keplerian).semi_major_axis =
      (MU_EARTH / (t.mean_motion * 2 * Real.pi / 86400) ^ 2) ^ ((1:ℝ)/3)) ∧
    from_lines issLine1 issLine2 = some (Except.ok issRaw) ∧
    6700 < lengthGetKilometers ((TleElements.ofRaw issRaw).to_keplerian.semi_major_axis) ∧
    lengthGetKilometers ((TleElements.ofRaw issRaw).to_keplerian.semi_major_axis) < 6900 := by
  have hgen : ∀ t : TleElements, (t.to_keplerian).semi_major_axis =
      (MU_EARTH / (t.mean_motion * 2 * Real.pi / 86400) ^ 2) ^ ((1:ℝ)/3) := by
    intro t
    simp only [TleElements.to_keplerian, KeplerianElements.new, lengthOfKilometers]
    rw [div_mul_cancel₀ _ (by norm_num : (1000:ℝ) ≠ 0), pow_two]
  have hm : (TleElements.ofRaw issRaw).mean_motion = 1549309432 / 100000000 := by
    norm_num [TleElements.ofRaw, issRaw, DecNum.toReal, pow10]
  set m : ℝ := 1549309432 / 100000000 with hmdef
  have hC : MU_EARTH / (m * 2 * Real.pi / 86400) ^ 2 =
      (MU_EARTH * 86400 ^ 2 / (4 * m ^ 2)) / Real.pi ^ 2 := by
    rw [hmdef]
    field_simp [MU_EARTH]
    ring
  have hCpos : (0:ℝ) < MU_EARTH * 86400 ^ 2 / (4 * m ^ 2) := by
    rw [hmdef]; norm_num [MU_EARTH]
  have hpil : (3.141592 : ℝ) < Real.pi := Real.pi_gt_d6
  have hpiu : Real.pi < 3.141593 := Real.pi_lt_d6
  have hpi2l : (3.141592 : ℝ) ^ 2 < Real.pi ^ 2 := by
    apply pow_lt_pow_left₀ hpil (by norm_num) (by norm_num)
  have hpi2u : Real.pi ^ 2 < (3.141593 : ℝ) ^ 2 := by
    apply pow_lt_pow_left₀ hpiu Real.pi_nonneg (by norm_num)
  have hXlo : (6700000:ℝ) ^ (3:ℕ) < MU_EARTH / (m * 2 * Real.pi / 86400) ^ 2 := by
    rw [hC]
    calc (6700000:ℝ) ^ (3:ℕ)
        < (MU_EARTH * 86400 ^ 2 / (4 * m ^ 2)) / (3.141593:ℝ) ^ 2 := by
          rw [hmdef]; norm_num [MU_EARTH]
      _ < (MU_EARTH * 86400 ^ 2 / (4 * m ^ 2)) / Real.pi ^ 2 := by
          apply div_lt_div_of_pos_left hCpos (by positivity) hpi2u
  have hXhi : MU_EARTH / (m * 2 * Real.pi / 86400) ^ 2 < (6900000:ℝ) ^ (3:ℕ) := by
    rw [hC]
    calc (MU_EARTH * 86400 ^ 2 / (4 * m ^ 2)) / Real.pi ^ 2
        < (MU_EARTH * 86400 ^ 2 / (4 * m ^ 2)) / (3.141592:ℝ) ^ 2 := by
          apply div_lt_div_of_pos_left hCpos (by norm_num) hpi2l
      _ < (6900000:ℝ) ^ (3:ℕ) := by rw [hmdef]; norm_num [MU_EARTH]
  have hXpos : (0:ℝ) < MU_EARTH / (m * 2 * Real.pi / 86400) ^ 2 :=
    lt_trans (by positivity) hXlo
  have hcube : ∀ c : ℝ, 0 ≤ c → (c ^ (3:ℕ) : ℝ) ^ ((1:ℝ)/3) = c := by
    intro c hc
    rw [← Real.rpow_natCast c 3, ← Real.rpow_mul hc]
    norm_num
  have hlow : (6700000:ℝ) < (MU_EARTH / (m * 2 * Real.pi / 86400) ^ 2) ^ ((1:ℝ)/3) := by
    have h := Real.rpow_lt_rpow (by positivity : (0:ℝ) ≤ (6700000:ℝ) ^ (3:ℕ)) hXlo
      (by norm_num : (0:ℝ) < 1/3)
    rwa [hcube 6700000 (by norm_num)] at h
  have hhigh : (MU_EARTH / (m * 2 * Real.pi / 86400) ^ 2) ^ ((1:ℝ)/3) < 6900000 := by
    have h := Real.rpow_lt_rpow (le_of_lt hXpos) hXhi (by norm_num : (0:ℝ) < 1/3)
    rwa [hcube 6900000 (by norm_num)] at h
  refine ⟨hgen, by decide, ?_, ?_⟩
  · rw [lengthGetKilometers, hgen, hm]
    rw [lt_div_iff₀ (by norm_num : (0:ℝ) < 1000)]
    calc (6700:ℝ) * 1000 = 6700000 := by norm_num
      _ < _ := hlow
  · rw [lengthGetKilometers, hgen, hm]
    rw [div_lt_iff₀ (by norm_num : (0:ℝ) < 1000)]
    calc (MU_EARTH / (m * 2 * Real.pi / 86400) ^ 2) ^ ((1:ℝ)/3)
        < 6900000 := hhigh
      _ = 6900 * 1000 := by norm_num

theorem atan2_smul (k y x : ℝ) (hk : 0 < k) : atan2 (k * y) (k * x) = atan2 y x := by
  have hdiv : k * y / (k * x) = y / x := mul_div_mul_left y x (ne_of_gt hk)
  unfold atan2
  rcases lt_trichotomy x 0 with hx | hx | hx
  · have hkx : k * x < 0 := mul_neg_of_pos_of_neg hk hx
    have h1 : ¬(0:ℝ) < k * x := not_lt.mpr hkx.le
    have h2 : ¬(0:ℝ) < x := not_lt.mpr hx.le
    rw [if_neg h1, if_pos hkx, if_neg h2, if_pos hx, hdiv]
    by_cases hy : 0 ≤ y
    · rw [if_pos (mul_nonneg hk.le hy), if_pos hy]
    · have hky : ¬0 ≤ k * y := fun h => hy (nonneg_of_mul_nonneg_right h hk)
      rw [if_neg hky, if_neg hy]
  · subst hx
    rw [mul_zero]
    simp only [lt_self_iff_false, if_false]
    by_cases hy : 0 < y
    · rw [if_pos (mul_pos hk hy), if_pos hy]
    · have hky : ¬0 < k * y := fun h => hy ((mul_pos_iff_of_pos_left hk).mp h)
      rw [if_neg hky, if_neg hy]
      by_cases hy2 : y < 0
      · rw [if_pos (mul_neg_of_pos_of_neg hk hy2), if_pos hy2]
      · have hky2 : ¬k * y < 0 := fun h => hy2 (neg_of_mul_neg_right h hk.le)
        rw [if_neg hky2, if_neg hy2]
  · rw [if_pos (mul_pos hk hx), if_pos hx, hdiv]

theorem atan2_sin_cos (a : ℝ) (hlo : -Real.pi < a) (hhi : a ≤ Real.pi) :
    atan2 (Real.sin a) (Real.cos a) = a := by
  have hpi := Real.pi_pos
  rcases le_or_lt a (-(Real.pi / 2)) with hA | hA
  · rcases eq_or_lt_of_le hA with hA' | hA'
    · subst hA'
      unfold atan2
      rw [Real.cos_neg, Real.cos_pi_div_two, Real.sin_neg, Real.sin_pi_div_two]
      norm_num
    · have hcos : Real.cos a < 0 := by
        have h1 : Real.cos (-a) < 0 :=
          Real.cos_neg_of_pi_div_two_lt_of_lt (by linarith) (by linarith)
        rwa [Real.cos_neg] at h1
      have hsin : Real.sin a < 0 :=
        Real.sin_neg_of_neg_of_neg_pi_lt (by linarith) hlo
      have h1 : ¬(0:ℝ) < Real.cos a := not_lt.mpr hcos.le
      have h2 : ¬(0:ℝ) ≤ Real.sin a := not_le.mpr hsin
      unfold atan2
      rw [if_neg h1, if_pos hcos, if_neg h2]
      have htan : Real.sin a / Real.cos a = Real.tan (a + Real.pi) := by
        rw [Real.tan_periodic a, Real.tan_eq_sin_div_cos]
      rw [htan, Real.arctan_tan (by linarith) (by linarith)]
      ring
  · rcases lt_or_le a (Real.pi / 2) with hB | hB
    · have hcos : 0 < Real.cos a := Real.cos_pos_of_mem_Ioo ⟨hA, hB⟩
      unfold atan2
      rw [if_pos hcos, ← Real.tan_eq_sin_div_cos, Real.arctan_tan hA hB]
    · rcases eq_or_lt_of_le hB with hB' | hB'
      · rw [← hB']
        unfold atan2
        rw [Real.cos_pi_div_two, Real.sin_pi_div_two]
        norm_num
      · have hcos : Real.cos a < 0 :=
          Real.cos_neg_of_pi_div_two_lt_of_lt hB' (by linarith)
        have hsin : 0 ≤ Real.sin a :=
          Real.sin_nonneg_of_nonneg_of_le_pi (by linarith) hhi
        have h1 : ¬(0:ℝ) < Real.cos a := not_lt.mpr hcos.le
        unfold atan2
        rw [if_neg h1, if_pos hcos, if_pos hsin]
        have htan : Real.sin a / Real.cos a = Real.tan (a - Real.pi) := by
          rw [Real.tan_periodic.sub_eq a, Real.tan_eq_sin_div_cos]
        rw [htan, Real.arctan_tan (by linarith) (by linarith)]
        ring

/-- Claim C7: for ra ∈ [0, 2π), dec strictly inside (−π/2, π/2) and r > 0,
decomposing `from_ra_dec(ra, dec, r)` with `to_spherical_celestial` returns
(ra′, dec′, r′) with |ra′−ra| + |dec′−dec| + |r′−r|/r < 10⁻⁶ (here the round
trip is exact over ℝ), and the returned right ascension lies in [0, 2π). -/
theorem ra_dec_roundtrip (ra dec r : ℝ) (h1 : 0 ≤ ra) (h2 : ra < 2 * Real.pi)
    (h3 : -(Real.pi / 2) < dec) (h4 : dec < Real.pi / 2) (h5 : 0 < r) :
    |(to_spherical_celestial (from_ra_dec ra dec r)).1 - ra| +
      |(to_spherical_celestial (from_ra_dec ra dec r)).2.1 - dec| +
      |(to_spherical_celestial (from_ra_dec ra dec r)).2.2 - r| / r < 1 / 1000000 ∧
    0 ≤ (to_spherical_celestial (from_ra_dec ra dec r)).1 ∧
    (to_spherical_celestial (from_ra_dec ra dec r)).1 < 2 * Real.pi := by
  have hpi := Real.pi_pos
  have hcosd : 0 < Real.cos dec := Real.cos_pos_of_mem_Ioo ⟨h3, h4⟩
  have hk : 0 < r * Real.cos dec := mul_pos h5 hcosd
  have hsum : (r * Real.cos dec * Real.cos ra) ^ 2 + (r * Real.cos dec * Real.sin ra) ^ 2 +
      (r * Real.sin dec) ^ 2 = r ^ 2 := by
    have c1 := Real.sin_sq_add_cos_sq ra
    have c2 := Real.sin_sq_add_cos_sq dec
    linear_combination (r ^ 2 * Real.cos dec ^ 2) * c1 + r ^ 2 * c2
  have hdist : (from_ra_dec ra dec r).distance_from_origin = r := by
    show Real.sqrt ((r * Real.cos dec * Real.cos ra) ^ 2 +
      (r * Real.cos dec * Real.sin ra) ^ 2 + (r * Real.sin dec) ^ 2) = r
    rw [hsum]
    exact Real.sqrt_sq h5.le
  have hAB : atan2 (r * Real.cos dec * Real.sin ra) (r * Real.cos dec * Real.cos ra) =
      atan2 (Real.sin ra) (Real.cos ra) := atan2_smul _ _ _ hk
  have hra' : (to_spherical_celestial (from_ra_dec ra dec r)).1 = ra := by
    show (if atan2 (r * Real.cos dec * Real.sin ra) (r * Real.cos dec * Real.cos ra) < 0 then
        atan2 (r * Real.cos dec * Real.sin ra) (r * Real.cos dec * Real.cos ra) + 2 * Real.pi
      else atan2 (r * Real.cos dec * Real.sin ra) (r * Real.cos dec * Real.cos ra)) = ra
    rw [hAB]
    rcases le_or_lt ra Real.pi with hle | hgt
    · rw [atan2_sin_cos ra (by linarith) hle, if_neg (not_lt.mpr h1)]
    · have heq : atan2 (Real.sin ra) (Real.cos ra) = ra - 2 * Real.pi := by
        have h := atan2_sin_cos (ra - 2 * Real.pi) (by linarith) (by linarith)
        rwa [Real.sin_sub_two_pi, Real.cos_sub_two_pi] at h
      rw [heq, if_pos (by linarith)]
      ring
  have hzr : r * Real.sin dec / r = Real.sin dec := mul_div_cancel_left₀ _ (ne_of_gt h5)
  have hdec' : (to_spherical_celestial (from_ra_dec ra dec r)).2.1 = dec := by
    show (if 0 < (from_ra_dec ra dec r).distance_from_origin then
        Real.arcsin (r * Real.sin dec / (from_ra_dec ra dec r).distance_from_origin)
      else 0) = dec
    rw [hdist, if_pos h5, hzr]
    exact Real.arcsin_sin h3.le h4.le
  have hdist' : (to_spherical_celestial (from_ra_dec ra dec r)).2.2 = r := hdist
  rw [hra', hdec', hdist']
  refine ⟨?_, h1, h2⟩
  simp [sub_self]

/-- Witness for C7: the round trip at ra = 0, dec = 0, r = 1 metre. -/
theorem ra_dec_roundtrip_witness :
    (0:ℝ) < 1 ∧
    (|(to_spherical_celestial (from_ra_dec 0 0 1)).1 - 0| +
      |(to_spherical_celestial (from_ra_dec 0 0 1)).2.1 - 0| +
      |(to_spherical_celestial (from_ra_dec 0 0 1)).2.2 - 1| / 1 < 1 / 1000000 ∧
    0 ≤ (to_spherical_celestial (from_ra_dec 0 0 1)).1 ∧
    (to_spherical_celestial (from_ra_dec 0 0 1)).1 < 2 * Real.pi) :=
  ⟨by norm_num,
    ra_dec_roundtrip 0 0 1 le_rfl (by linarith [Real.pi_pos]) (by linarith [Real.pi_pos])
      (by linarith [Real.pi_pos]) (by norm_num)⟩

end Celestial
